import Mathlib

/-
  Verification development for the pi-test-harness repository.

  Shallow embedding of the core of the harness:
    * playbook.ts      — the Response Generator (`createPlaybookStreamFn`, `streamFn`,
                         `resolveParams`, `createAssistantMessage`, the `PlaybookState`)
    * mock-tools.ts    — the Tool Execution Interceptor (`interceptToolExecution`,
                         `wrapForCollection`, `normalizeMockResult`, `fireThenCallback`)
    * diagnostics.ts   — `formatAction`, `formatPlaybookDiagnostic`, `formatToolError`
    * mock-ui.ts       — `createMockUIContext` (select / confirm / input / editor)
    * session.ts       — the tool-wrapping and post-run consumption check of `run()`
    * events.ts        — `toolResultsFor`

  Conventions of the embedding:
    * JavaScript mutation is explicit state passing.  Module-level mutable state of
      playbook.ts (the `toolCallCounter`) is a `PlaybookModule` value threaded through
      the functions that read or write it.  Session-scoped mutable state reached
      through closures in mock-tools.ts (the shared `toolResults` array, the per-run
      `PlaybookState` values, `console.warn` output, and the shared counter of the
      repository's `counter_tool` test fixture) is a `SessionWorld` value.
    * A `throw` is the `Except.error` branch of the result; a thrown JS `Error` value
      is an `ErrVal` (message, optional stack, optional cause message).
    * A JS callback that may itself throw is a function into `Except String Unit`.
    * JSON-ish parameter values are `JVal`; a `Record<string, unknown>` is an
      association list.  A JS `Map` is an association list with unique keys, with
      `mapGet` / `mapHas` / `mapSet` / `mapDelete` mirroring get / has / set / delete.
    * Late-bound parameter closures read the mutable state they capture; that ambient
      state is a `World` value passed at evaluation time.
    * Fields of the `AssistantMessage` that the harness fills with constants or
      ambient values (usage, timestamp) are elided.
-/

set_option autoImplicit false

namespace PiTestHarness

/-- JSON-like values used for tool parameters and detail payloads. -/
inductive JVal where
  | str (s : String)
  | num (n : Int)
  | bool (b : Bool)
deriving Repr, DecidableEq

/-- A `Record<string, unknown>` of tool parameters. -/
abbrev Params := List (String × JVal)

/-- The ambient mutable state a late-bound parameter closure can read
(the variables of the test script captured by the closure). -/
abbrev World := List (String × JVal)

/-- One content item of a tool result or message (`{ type, text }` in types.ts). -/
structure ContentItem where
  type : String
  text : String
deriving Repr, DecidableEq

/-- An opaque structured detail payload (`details?: unknown` in types.ts). -/
inductive Details where
  | obj (fields : List (String × JVal))
deriving Repr, DecidableEq

/-- `ToolResult` from types.ts: content items plus optional details and error flag. -/
structure ToolResult where
  content : List ContentItem
  details : Option Details := none
  isError : Option Bool := none
deriving Repr, DecidableEq

/-- A thrown JS `Error`: message, optional stack, optional cause (by its message). -/
structure ErrVal where
  message : String
  stack : Option String := none
  cause : Option String := none
deriving Repr, DecidableEq

/-- `ToolResultRecord` from types.ts — the attribution unit appended to the
Event Collector's `toolResults` list. -/
structure ToolResultRecord where
  step : Nat
  toolName : String
  toolCallId : String
  text : String
  content : List ContentItem
  isError : Bool
  details : Option Details
  mocked : Bool
deriving Repr, DecidableEq

/-- A `.then()` completion callback; it may itself throw (`Except.error`). -/
abbrev Callback := ToolResultRecord → Except String Unit

/-- The parameter source of a Call action: a fixed mapping, or a zero-argument
producer evaluated against the ambient `World` at consumption time
(`Record<string, unknown> | (() => Record<string, unknown>)` in types.ts). -/
inductive ParamSource where
  | fixed (params : Params)
  | fn (producer : World → Params)

/-- `PlaybookAction` from types.ts, by its `type` tag ("say" / "call").
Optional fields stay optional, as in the source interface. -/
inductive PlaybookAction where
  | say (text : Option String)
  | call (toolName : String) (params : Option ParamSource) (thenCallback : Option Callback)

/-- `Turn` from types.ts: a prompt and the scripted actions it triggers. -/
structure Turn where
  prompt : String
  actions : List PlaybookAction

/-- The `says()` DSL builder from playbook.ts (named `saysAction` here because
Mathlib reserves `says` as a tactic keyword). -/
def saysAction (text : String) : PlaybookAction := .say (some text)

/-- The `calls()` DSL builder from playbook.ts (without a `.then()` callback). -/
def calls (toolName : String) (params : ParamSource) : PlaybookAction :=
  .call toolName (some params) none

/-- The `calls().then()` DSL chain from playbook.ts. -/
def callsThen (toolName : String) (params : ParamSource) (cb : Callback) : PlaybookAction :=
  .call toolName (some params) (some cb)

/-- JS `Map.get`. -/
def mapGet {α : Type} (m : List (String × α)) (k : String) : Option α :=
  (m.find? (fun p => p.1 == k)).map (fun p => p.2)

/-- JS `Map.has`. -/
def mapHas {α : Type} (m : List (String × α)) (k : String) : Bool :=
  m.any (fun p => p.1 == k)

/-- JS `Map.set` (replaces the entry when the key is present). -/
def mapSet {α : Type} (m : List (String × α)) (k : String) (v : α) : List (String × α) :=
  if mapHas m k then m.map (fun p => if p.1 == k then (k, v) else p) else m ++ [(k, v)]

/-- JS `Map.delete` (a JS map has unique keys, so removing every entry with the
key removes exactly the one entry). -/
def mapDelete {α : Type} (m : List (String × α)) (k : String) : List (String × α) :=
  m.filter (fun p => p.1 != k)

/-- Whether `pattern` is a prefix of `hay` (on character lists). -/
def charsPrefix : List Char → List Char → Bool
  | [], _ => true
  | _ :: _, [] => false
  | p :: ps, h :: hs => p == h && charsPrefix ps hs

/-- Whether `pattern` occurs somewhere in `hay` (on character lists). -/
def charsContain (hay pattern : List Char) : Bool :=
  charsPrefix pattern hay ||
    match hay with
    | [] => false
    | _ :: rest => charsContain rest pattern

/-- String containment test (`String.prototype.includes`). -/
def strContains (s pattern : String) : Bool :=
  charsContain s.data pattern.data

/-- `text` extraction used for records: keep `"text"` content items and join
their texts with newlines. -/
def contentText (content : List ContentItem) : String :=
  String.intercalate "\n" ((content.filter (fun c => c.type == "text")).map (fun c => c.text))

/-- `PlaybookState` from playbook.ts. -/
structure PlaybookState where
  consumed : Nat
  remaining : Nat
  consumedActions : List PlaybookAction
  pendingCallbacks : List (String × Callback)

/-- The module-level mutable state of playbook.ts: the `toolCallCounter`
declared with `let` at file scope (shared by every engine in the process). -/
structure PlaybookModule where
  toolCallCounter : Nat
deriving Repr, DecidableEq

/-- `resolveParams` from playbook.ts: `undefined` gives `{}`, a function is
invoked now (against the ambient world), a fixed record passes through. -/
def resolveParams (world : World) (params : Option ParamSource) : Params :=
  match params with
  | none => []
  | some (.fn producer) => producer world
  | some (.fixed p) => p

/-- `JSON.stringify` of a parameter value. -/
def jvalToJson (v : JVal) : String :=
  match v with
  | .str s => "\"" ++ s ++ "\""
  | .num n => toString n
  | .bool b => if b then "true" else "false"

/-- `JSON.stringify` of a fixed parameter record. -/
def paramsToJson (p : Params) : String :=
  "\x7b" ++ String.intercalate ","
    (p.map (fun kv => "\"" ++ kv.1 ++ "\":" ++ jvalToJson kv.2)) ++ "\x7d"

/-- `formatAction` from diagnostics.ts. -/
def formatAction (action : PlaybookAction) : String :=
  match action with
  | .say text =>
      let t := match text with
        | some t => t.take 60 ++ (if t.length > 60 then "..." else "")
        | none => "undefined"
      "say(\"" ++ t ++ "\")"
  | .call toolName params _ =>
      let paramsStr := match params with
        | some (.fn _) => "<late-bound>"
        | some (.fixed p) => paramsToJson p
        | none => "undefined"
      let truncated := if paramsStr.length > 80 then paramsStr.take 80 ++ "..." else paramsStr
      "call(\"" ++ toolName ++ "\", " ++ truncated ++ ")"

/-- The lines of the "exhausted" diagnostic of `formatPlaybookDiagnostic`
(diagnostics.ts), before they are joined with newlines. -/
def exhaustedDiagLines (state : PlaybookState) : List String :=
  let base := ["Playbook exhausted unexpectedly.",
               "  Consumed " ++ toString state.consumed ++ " action(s)."]
  let withLast := match state.consumedActions.getLast? with
    | some last =>
        base ++ ["  Last consumed: " ++ formatAction last ++ " at step " ++ toString state.consumed]
    | none => base
  withLast ++
    ["",
     "  The agent loop called streamFn but no more playbook actions were available.",
     "  This usually means a tool call produced an unexpected result that caused",
     "  additional streamFn calls (retries, error handling)."]

/-- The lines of the "remaining" diagnostic of `formatPlaybookDiagnostic`
(diagnostics.ts), before they are joined with newlines. -/
def remainingDiagLines (state : PlaybookState) (remainingActions : List PlaybookAction) :
    List String :=
  ["Playbook not fully consumed after run() completed.",
   "  Consumed " ++ toString state.consumed ++ " of "
     ++ toString (state.consumed + remainingActions.length) ++ " action(s).",
   "  Remaining:"]
  ++ (remainingActions.take 5).map (fun action => "    - " ++ formatAction action)
  ++ (if remainingActions.length > 5 then
        ["    ... +" ++ toString (remainingActions.length - 5) ++ " more"]
      else [])
  ++ ["",
      "  The agent loop ended before all playbook actions were used.",
      "  This usually means a tool was blocked by a hook or returned early,",
      "  causing fewer streamFn calls than expected."]

/-- `formatPlaybookDiagnostic` from diagnostics.ts. -/
def formatPlaybookDiagnostic (type : String) (state : PlaybookState)
    (remainingActions : Option (List PlaybookAction)) : String :=
  if type == "exhausted" then
    String.intercalate "\n" (exhaustedDiagLines state)
  else if type == "remaining" then
    match remainingActions with
    | some ra => String.intercalate "\n" (remainingDiagLines state ra)
    | none => "Unknown playbook diagnostic."
  else "Unknown playbook diagnostic."

/-- `formatToolError` from diagnostics.ts. -/
def formatToolError (step : Nat) (toolName : String) (error : ErrVal) : String :=
  let message := error.message
  let stackLines := match error.stack with
    | some stack => (((stack.splitOn "\n").drop 1).take 3).map (fun line => "  " ++ line.trim)
    | none => []
  String.intercalate "\n"
    (["Error during tool execution at playbook step " ++ toString step
        ++ " (call \"" ++ toolName ++ "\"):",
      "  " ++ message]
     ++ stackLines
     ++ ["",
         "This error was thrown by the real tool execution, not by the playbook.",
         "To capture errors as tool results instead of aborting, set:",
         "  createTestSession(\x7b propagateErrors: false \x7d)"])


/-- One content item of an `AssistantMessage` (text, or a structured tool call). -/
inductive MsgContent where
  | text (text : String)
  | toolCall (id : String) (name : String) (args : Params)
deriving Repr, DecidableEq

/-- The `AssistantMessage` built by playbook.ts (constant usage and ambient
timestamp elided). -/
structure AssistantMessage where
  role : String
  content : List MsgContent
  api : String
  provider : String
  model : String
  stopReason : String
deriving Repr, DecidableEq

/-- `createAssistantMessage` from playbook.ts: a Say becomes one text item with
stop reason "stop"; a Call increments the module-level `toolCallCounter`,
resolves its parameters now, and becomes one toolCall item with id
`playbook-tc-<counter>` and stop reason "toolUse". -/
def createAssistantMessage (moduleState : PlaybookModule) (world : World)
    (action : PlaybookAction) : PlaybookModule × AssistantMessage :=
  match action with
  | .say text =>
      (moduleState,
       { role := "assistant",
         content := [.text (text.getD "")],
         api := "openai-responses", provider := "test", model := "playbook",
         stopReason := "stop" })
  | .call toolName params _ =>
      let counter := moduleState.toolCallCounter + 1
      let resolvedParams := resolveParams world params
      ({ toolCallCounter := counter },
       { role := "assistant",
         content := [.toolCall ("playbook-tc-" ++ toString counter) toolName resolvedParams],
         api := "openai-responses", provider := "test", model := "playbook",
         stopReason := "toolUse" })

/-- The queue and live state owned by one `createPlaybookStreamFn` closure. -/
structure Engine where
  queue : List PlaybookAction
  state : PlaybookState

/-- The terminal "done" event `streamFn` pushes on its stream. -/
structure StreamDone where
  reason : String
  message : AssistantMessage

/-- `createPlaybookStreamFn` from playbook.ts: flattens all turns into one
queue, creates a fresh `PlaybookState`, and resets the module-level
`toolCallCounter` to zero ("Reset counter for test isolation"). -/
def createPlaybookStreamFn (moduleState : PlaybookModule) (turns : List Turn) :
    PlaybookModule × Engine :=
  let queue := (turns.map Turn.actions).flatten
  let state : PlaybookState :=
    { consumed := 0, remaining := queue.length, consumedActions := [], pendingCallbacks := [] }
  let _ := moduleState
  ({ toolCallCounter := 0 }, { queue := queue, state := state })

/-- One invocation of the `streamFn` closure from playbook.ts.  An empty queue
yields the "[PLAYBOOK EXHAUSTED]" terminal message and leaves the state
untouched; otherwise the head action is consumed, counters and the
consumed-actions log are updated, the assistant message is built, and a
`.then()` callback (if any) is registered under the new tool-call id. -/
def streamFnStep (moduleState : PlaybookModule) (world : World) (engine : Engine) :
    PlaybookModule × Engine × StreamDone :=
  match engine.queue with
  | [] =>
      let diagnostic := formatPlaybookDiagnostic "exhausted" engine.state none
      let fallback : AssistantMessage :=
        { role := "assistant",
          content := [.text ("[PLAYBOOK EXHAUSTED] " ++ diagnostic)],
          api := "openai-responses", provider := "test", model := "playbook",
          stopReason := "stop" }
      (moduleState, engine, { reason := "stop", message := fallback })
  | action :: rest =>
      let state1 : PlaybookState :=
        { engine.state with
          consumed := engine.state.consumed + 1,
          remaining := rest.length,
          consumedActions := engine.state.consumedActions ++ [action] }
      let stepped := createAssistantMessage moduleState world action
      let message := stepped.2
      let state2 : PlaybookState :=
        match action with
        | .call toolName _ (some cb) =>
            let tcContent := message.content.find? (fun c =>
              match c with
              | .toolCall _ _ _ => true
              | _ => false)
            let tcId := match tcContent with
              | some (.toolCall id _ _) => id
              | _ => toolName
            { state1 with pendingCallbacks := mapSet state1.pendingCallbacks tcId cb }
        | _ => state1
      (stepped.1, { queue := rest, state := state2 },
       { reason := if message.stopReason == "toolUse" then "toolUse" else "stop",
         message := message })


/-- The session-scoped mutable state reached through closures in mock-tools.ts:
the shared `toolResults` array of the Event Collector, the per-run
`PlaybookState` values (one per `run()` invocation; a wrapper closure holds the
index of the run it was created in), the `console.warn` output, and the shared
counter mutated by the repository's `counter_tool` test fixture. -/
structure SessionWorld where
  toolResults : List ToolResultRecord
  pbStates : List PlaybookState
  warnings : List String
  hits : Nat := 0

/-- A tool's `execute` entry point: call id and parameters in, a structured
result or a thrown error out, with its effects on the session world. -/
abbrev ExecFn := String → Params → SessionWorld → Except ErrVal ToolResult × SessionWorld

/-- An `AgentTool` as the interceptor sees it: its name and its `execute`. -/
structure AgentTool where
  name : String
  execute : ExecFn

/-- `fireThenCallback` from mock-tools.ts: look the pending callback up by tool
call id first, then by tool name; delete the matched entry; invoke the callback,
catching (and logging via `console.warn`) anything it throws.  Returns the new
state, the warn output, and the key the callback was found under (if any). -/
def fireThenCallback (state : PlaybookState) (toolCallId : String)
    (record : ToolResultRecord) : PlaybookState × List String × Option String :=
  let callback := match mapGet state.pendingCallbacks toolCallId with
    | some cb => some cb
    | none => mapGet state.pendingCallbacks record.toolName
  let key := if mapHas state.pendingCallbacks toolCallId then toolCallId else record.toolName
  match callback with
  | some cb =>
      let state1 : PlaybookState :=
        { state with pendingCallbacks := mapDelete state.pendingCallbacks key }
      match cb record with
      | .ok _ => (state1, [], some key)
      | .error err =>
          (state1,
           ["[pi-test-harness] .then() callback error for " ++ record.toolName ++ ": " ++ err],
           some key)
  | none => (state, [], none)

/-- Read `playbookState.consumed` for the run a wrapper closure belongs to. -/
def stateConsumedAt (world : SessionWorld) (stateIdx : Nat) : Nat :=
  match world.pbStates[stateIdx]? with
  | some st => st.consumed
  | none => 0

/-- Apply `fireThenCallback` to the playbook state a wrapper closure holds,
collecting its `console.warn` output into the session world. -/
def fireThenCallbackAt (world : SessionWorld) (stateIdx : Nat) (toolCallId : String)
    (record : ToolResultRecord) : SessionWorld :=
  match world.pbStates[stateIdx]? with
  | none => world
  | some st =>
      let fired := fireThenCallback st toolCallId record
      { world with
        pbStates := world.pbStates.set stateIdx fired.1,
        warnings := world.warnings ++ fired.2.1 }

/-- `wrapForCollection` from mock-tools.ts: run the original `execute`; on
success push a `ToolResultRecord` (the real result's error flag, the given
`mocked` flag) and return the result unchanged; on a thrown error classify it
by message substrings, push an error-flagged record, fire the callback, then
re-raise blocks unchanged, re-raise other errors wrapped in the
`formatToolError` diagnostic when `propagateErrors` is set, and otherwise
swallow the error into a synthesized error result. -/
def wrapForCollection (tool : AgentTool) (stateIdx : Nat) (propagateErrors : Bool)
    (mocked : Bool) : AgentTool :=
  let originalExecute := tool.execute
  { name := tool.name,
    execute := fun toolCallId params world =>
      let step := stateConsumedAt world stateIdx
      match originalExecute toolCallId params world with
      | (.ok result, world1) =>
          let text := contentText result.content
          let record : ToolResultRecord :=
            { step := step, toolName := tool.name, toolCallId := toolCallId,
              text := text, content := result.content,
              isError := result.isError.getD false, details := result.details,
              mocked := mocked }
          let world2 := { world1 with toolResults := world1.toolResults ++ [record] }
          let world3 := fireThenCallbackAt world2 stateIdx toolCallId record
          (.ok result, world3)
      | (.error err, world1) =>
          let errMsg := err.message
          let isBlockedByHook := strContains errMsg "blocked"
            || strContains errMsg "Plan mode"
            || strContains errMsg "WRITE operation"
          let record : ToolResultRecord :=
            { step := step, toolName := tool.name, toolCallId := toolCallId,
              text := errMsg, content := [{ type := "text", text := errMsg }],
              isError := true, details := none, mocked := mocked }
          let world2 := { world1 with toolResults := world1.toolResults ++ [record] }
          let world3 := fireThenCallbackAt world2 stateIdx toolCallId record
          if isBlockedByHook then
            (.error err, world3)
          else if propagateErrors then
            (.error { message := formatToolError step tool.name err,
                      stack := none, cause := some err.message }, world3)
          else
            (.ok { content := [{ type := "text", text := errMsg }],
                   details := some (.obj []), isError := some true }, world3) }


/-- A mock handler's immediate output (`string | ToolResult`). -/
inductive MockHandlerOutput where
  | str (text : String)
  | structured (result : ToolResult)

/-- `MockToolHandler` from types.ts:
`string | ToolResult | ((params) => string | ToolResult)`. -/
inductive MockToolHandler where
  | str (text : String)
  | structured (result : ToolResult)
  | fn (handler : Params → MockHandlerOutput)

/-- `normalizeMockResult` from mock-tools.ts: resolve the handler against the
call's parameters; a bare string becomes a single-text-content result with
empty details; a structured result passes through unchanged. -/
def normalizeMockResult (handler : MockToolHandler) (params : Params) : ToolResult :=
  let raw : MockHandlerOutput := match handler with
    | .str s => .str s
    | .fn f => f params
    | .structured r => .structured r
  match raw with
  | .str s => { content := [{ type := "text", text := s }], details := some (.obj []) }
  | .structured r => r

/-- The block/override outcome a `tool_call` hook chain may return. -/
structure HookCallResult where
  block : Bool := false
  reason : Option String := none

/-- The content/details override a `tool_result` hook chain may return. -/
structure HookResultOverride where
  content : Option (List ContentItem) := none
  details : Option Details := none

/-- The `ExtensionRunner` hook-dispatch handle as mock-tools.ts uses it:
`hasHandlers("tool_call"/"tool_result")` plus the two emit functions (each
taking the tool name, tool call id and input; `emitToolResult` also receives
the computed content and details, its constant `isError: false` elided). -/
structure ExtensionRunnerModel where
  hasToolCallHandlers : Bool := false
  hasToolResultHandlers : Bool := false
  emitToolCall : String → String → Params → Option HookCallResult := fun _ _ _ => none
  emitToolResult : String → String → Params → List ContentItem → Option Details →
    Option HookResultOverride := fun _ _ _ _ _ => none

/-- The replacement `execute` that `interceptToolExecution` (mock-tools.ts)
installs for a tool with a mock handler: fire the `tool_call` hook (a block
records an error-flagged result, fires the callback, and throws a plain
`Error(reason)`); otherwise normalize the mock result, let the `tool_result`
hook override content/details, record the mocked result, fire the callback,
and return the result (details defaulted to `{}`, no error flag). -/
def mockedExecute (toolName : String) (mockHandler : MockToolHandler)
    (extensionRunner : Option ExtensionRunnerModel) (stateIdx : Nat) : ExecFn :=
  fun toolCallId params world =>
    let step := stateConsumedAt world stateIdx
    let blockReason : Option String := match extensionRunner with
      | some runner =>
          if runner.hasToolCallHandlers then
            match runner.emitToolCall toolName toolCallId params with
            | some callResult =>
                if callResult.block then
                  some (callResult.reason.getD "Tool execution was blocked by an extension")
                else none
            | none => none
          else none
      | none => none
    match blockReason with
    | some reason =>
        let record : ToolResultRecord :=
          { step := step, toolName := toolName, toolCallId := toolCallId,
            text := reason, content := [{ type := "text", text := reason }],
            isError := true, details := none, mocked := true }
        let world1 := { world with toolResults := world.toolResults ++ [record] }
        let world2 := fireThenCallbackAt world1 stateIdx toolCallId record
        (.error { message := reason }, world2)
    | none =>
        let result0 := normalizeMockResult mockHandler params
        let result : ToolResult := match extensionRunner with
          | some runner =>
              if runner.hasToolResultHandlers then
                match runner.emitToolResult toolName toolCallId params
                    result0.content result0.details with
                | some resultHook =>
                    { result0 with
                      content := resultHook.content.getD result0.content,
                      details := match resultHook.details with
                        | some d => some d
                        | none => result0.details }
                | none => result0
              else result0
          | none => result0
        let text := contentText result.content
        let record : ToolResultRecord :=
          { step := step, toolName := toolName, toolCallId := toolCallId,
            text := text, content := result.content,
            isError := result.isError.getD false, details := result.details,
            mocked := true }
        let world1 := { world with toolResults := world.toolResults ++ [record] }
        let world2 := fireThenCallbackAt world1 stateIdx toolCallId record
        (.ok { content := result.content, details := some (result.details.getD (.obj [])) },
         world2)

/-- `interceptToolExecution` from mock-tools.ts: return the tool list with
every tool wrapped — mocked tools get the replacement `execute`, unmocked
tools are wrapped transparently for collection.  The shared `toolResults`
array and the run's `PlaybookState` live in the `SessionWorld`; `stateIdx`
identifies the run whose state the created closures capture. -/
def interceptToolExecution (tools : List AgentTool)
    (mockTools : List (String × MockToolHandler)) (stateIdx : Nat)
    (propagateErrors : Bool) (extensionRunner : Option ExtensionRunnerModel) :
    List AgentTool :=
  tools.map (fun tool =>
    match mapGet mockTools tool.name with
    | none => wrapForCollection tool stateIdx propagateErrors false
    | some mockHandler =>
        { name := tool.name,
          execute := mockedExecute tool.name mockHandler extensionRunner stateIdx })

/-- `toolResultsFor` from events.ts. -/
def toolResultsFor (toolResults : List ToolResultRecord) (name : String) :
    List ToolResultRecord :=
  toolResults.filter (fun tr => tr.toolName == name)


/-- The post-run consumption assertion at the end of `run()` (session.ts):
if the playbook state still has remaining actions, throw the "remaining"
diagnostic built from all the turns' actions minus the consumed prefix. -/
def runConsumptionCheck (turns : List Turn) (state : PlaybookState) : Except String Unit :=
  if state.remaining > 0 then
    let allActions := (turns.map Turn.actions).flatten
    let remaining := allActions.drop state.consumed
    .error (formatPlaybookDiagnostic "remaining" state (some remaining))
  else .ok ()

/-- The session as `run()` sees it: the agent's current tool list
(`(session.agent as any).state.tools`) plus the session-scoped world. -/
structure SessionModel where
  tools : List AgentTool
  world : SessionWorld

/-- Invoke the named tool from the session's installed tool list, as the agent
loop does when the playbook scripts a Call for it. -/
def invokeTool (tools : List AgentTool) (toolName toolCallId : String) (params : Params)
    (world : SessionWorld) : SessionWorld :=
  match tools.find? (fun t => t.name == toolName) with
  | some tool => (tool.execute toolCallId params world).2
  | none => world

/-- One `run()` invocation of the test session (session.ts), restricted to the
behavior settled here: a fresh playbook engine and `PlaybookState` are created
with `createPlaybookStreamFn` (the new state is appended to the session world);
the wrapped tool list is derived by `interceptToolExecution` from the session's
CURRENT tool list — `(session.agent as any).state.tools`, i.e. whatever the
previous `setTools` installed — and installed via `setTools`; then the agent
loop drives the scripted tool invocations (`callsList`: tool name, tool call
id, parameters, one triple per Call action the playbook issues). -/
def sessionRun (moduleState : PlaybookModule) (mockTools : List (String × MockToolHandler))
    (propagateErrors : Bool) (extensionRunner : Option ExtensionRunnerModel)
    (session : SessionModel) (turns : List Turn)
    (callsList : List (String × String × Params)) : PlaybookModule × SessionModel :=
  let built := createPlaybookStreamFn moduleState turns
  let stateIdx := session.world.pbStates.length
  let world1 := { session.world with pbStates := session.world.pbStates ++ [built.2.state] }
  let tools1 := interceptToolExecution session.tools mockTools stateIdx
    propagateErrors extensionRunner
  let world2 := callsList.foldl
    (fun w c => invokeTool tools1 c.1 c.2.1 c.2.2 w) world1
  (built.1, { tools := tools1, world := world2 })

/-- The `counter_tool` registered by the repository's regression test
(`fixes.test.ts`): a real (unmocked) tool that increments a shared counter and
returns "hit N". -/
def counterTool : AgentTool :=
  { name := "counter_tool",
    execute := fun _ _ world =>
      let hits := world.hits + 1
      (.ok { content := [{ type := "text", text := "hit " ++ toString hits }],
             details := some (.obj [("count", .num (Int.ofNat hits))]) },
       { world with hits := hits }) }


/-- A value appearing in a `UICallRecord`'s arguments or return value. -/
inductive UIVal where
  | str (s : String)
  | strList (l : List String)
  | bool (b : Bool)
  | jsUndefined
deriving Repr, DecidableEq

/-- `UICallRecord` from types.ts (absent/undefined return value is `none`). -/
structure UICallRecord where
  method : String
  args : List UIVal
  returnValue : Option UIVal
deriving Repr, DecidableEq

/-- The `select` handler of `MockUIConfig` (types.ts):
`number | string | ((title, items) => string | undefined)`. -/
inductive SelectHandler where
  | idx (n : Nat)
  | str (s : String)
  | fn (f : String → List String → Option String)

/-- The `confirm` handler of `MockUIConfig`:
`boolean | ((title, message) => boolean)`. -/
inductive ConfirmHandler where
  | bool (b : Bool)
  | fn (f : String → String → Bool)

/-- The `input` / `editor` handlers of `MockUIConfig`:
`string | ((title, second?) => string | undefined)`. -/
inductive TextHandler where
  | str (s : String)
  | fn (f : String → Option String → Option String)

/-- `MockUIConfig` from types.ts (every handler optional). -/
structure MockUIConfig where
  select : Option SelectHandler := none
  confirm : Option ConfirmHandler := none
  input : Option TextHandler := none
  editor : Option TextHandler := none

/-- Encode an optional string argument for a `UICallRecord` (undefined keeps
its place in the argument list). -/
def uiArgOfOpt (s : Option String) : UIVal :=
  match s with
  | some s => .str s
  | none => .jsUndefined

/-- The `select` method of `createMockUIContext` (mock-ui.ts): no handler
defaults to the first item; a number indexes the options; a string must match
an option (else first); a function computes the result.  The call is recorded
with its arguments and return value. -/
def uiSelect (config : MockUIConfig) (uiLog : List UICallRecord) (title : String)
    (options : List String) : Option String × List UICallRecord :=
  let result : Option String := match config.select with
    | none => options.head?
    | some (.idx n) => options[n]?
    | some (.str s) =>
        match options.find? (fun o => o == s) with
        | some o => some o
        | none => options.head?
    | some (.fn f) => f title options
  (result,
   uiLog ++ [{ method := "select", args := [.str title, .strList options],
               returnValue := result.map UIVal.str }])

/-- The `confirm` method of `createMockUIContext`: no handler defaults to
`true` (approve); a boolean or a computed handler otherwise.  Recorded. -/
def uiConfirm (config : MockUIConfig) (uiLog : List UICallRecord) (title message : String) :
    Bool × List UICallRecord :=
  let result : Bool := match config.confirm with
    | none => true
    | some (.bool b) => b
    | some (.fn f) => f title message
  (result,
   uiLog ++ [{ method := "confirm", args := [.str title, .str message],
               returnValue := some (.bool result) }])

/-- The `input` method of `createMockUIContext`: no handler defaults to the
empty string; a static string or a computed handler otherwise.  Recorded. -/
def uiInput (config : MockUIConfig) (uiLog : List UICallRecord) (title : String)
    (placeholder : Option String) : Option String × List UICallRecord :=
  let result : Option String := match config.input with
    | none => some ""
    | some (.str s) => some s
    | some (.fn f) => f title placeholder
  (result,
   uiLog ++ [{ method := "input", args := [.str title, uiArgOfOpt placeholder],
               returnValue := result.map UIVal.str }])

/-- The `editor` method of `createMockUIContext`: no handler defaults to the
empty string; a static string or a computed handler otherwise.  Recorded. -/
def uiEditor (config : MockUIConfig) (uiLog : List UICallRecord) (title : String)
    (prefill : Option String) : Option String × List UICallRecord :=
  let result : Option String := match config.editor with
    | none => some ""
    | some (.str s) => some s
    | some (.fn f) => f title prefill
  (result,
   uiLog ++ [{ method := "editor", args := [.str title, uiArgOfOpt prefill],
               returnValue := result.map UIVal.str }])


/-- The mock-tool configuration of the double-wrap regression scenario
(`fixes.test.ts` configures mock handlers so that `run()` takes the
interception path, while `counter_tool` itself stays unmocked). -/
def c1MockTools : List (String × MockToolHandler) := [("bash", .str "ok")]

/-- Session state right after `createTestSession` in the double-wrap scenario:
the real `counter_tool` is registered and nothing has run yet. -/
def c1Session0 : SessionModel :=
  { tools := [counterTool],
    world := { toolResults := [], pbStates := [], warnings := [], hits := 0 } }

/-- First turn of the double-wrap scenario: one Call to `counter_tool`, then a
Say. -/
def c1Turn1 : Turn :=
  { prompt := "First",
    actions := [calls "counter_tool" (.fixed []), saysAction "Done with first."] }

/-- Second turn of the double-wrap scenario. -/
def c1Turn2 : Turn :=
  { prompt := "Second",
    actions := [calls "counter_tool" (.fixed []), saysAction "Done with second."] }

/-- The first `run()` of the double-wrap scenario: the agent loop performs the
single scripted `counter_tool` invocation. -/
def c1Run1 : PlaybookModule × SessionModel :=
  sessionRun { toolCallCounter := 0 } c1MockTools true none c1Session0 [c1Turn1]
    [("counter_tool", "playbook-tc-1", [])]

/-- The second `run()` of the double-wrap scenario on the same session. -/
def c1Run2 : PlaybookModule × SessionModel :=
  sessionRun c1Run1.1 c1MockTools true none c1Run1.2 [c1Turn2]
    [("counter_tool", "playbook-tc-1", [])]

/-- An extension runner whose `tool_call` hook chain blocks the invocation
with a reason (the plan-mode shape exercised by the repository's tests). -/
def c2Runner : ExtensionRunnerModel :=
  { hasToolCallHandlers := true,
    hasToolResultHandlers := false,
    emitToolCall := fun _ _ _ =>
      some { block := true, reason := some "WRITE operation blocked in plan mode" },
    emitToolResult := fun _ _ _ _ _ => none }

/-- Session world for the blocked mocked call: one run is active, its playbook
state has consumed one action (the Call being executed). -/
def c2World : SessionWorld :=
  { toolResults := [],
    pbStates := [{ consumed := 1, remaining := 1, consumedActions := [],
                   pendingCallbacks := [] }],
    warnings := [], hits := 0 }

/-- The blocked invocation of the mocked tool `bash`. -/
def c2Out : Except ErrVal ToolResult × SessionWorld :=
  mockedExecute "bash" (.str "ok") (some c2Runner) 0 "playbook-tc-1" [] c2World

/-- A one-Call turn for engine A of the counter-interference scenario. -/
def c3TurnA : Turn := { prompt := "a", actions := [calls "toolA" (.fixed [])] }

/-- A one-Call turn for engine B of the counter-interference scenario. -/
def c3TurnB : Turn := { prompt := "b", actions := [calls "toolB" (.fixed [])] }

/-- Engine B constructed and invoked with no other engine active: its first
generated message, i.e. the ids a run sees in isolation. -/
def c3Isolated : List MsgContent :=
  let built := createPlaybookStreamFn { toolCallCounter := 0 } [c3TurnB]
  (streamFnStep built.1 [] built.2).2.2.message.content

/-- Engine A and engine B constructed concurrently (A first), then A generates
one Call before B generates its first: B's first generated message. -/
def c3Interleaved : List MsgContent :=
  let builtA := createPlaybookStreamFn { toolCallCounter := 0 } [c3TurnA]
  let builtB := createPlaybookStreamFn builtA.1 [c3TurnB]
  let stepA := streamFnStep builtB.1 [] builtA.2
  (streamFnStep stepA.1 [] builtB.2).2.2.message.content

/-- Lemma: `mapHas` is `Option.isSome` of `mapGet`. -/
theorem mapHas_eq_isSome_mapGet {α : Type} (m : List (String × α)) (k : String) :
    mapHas m k = (mapGet m k).isSome := by
  induction m with
  | nil => rfl
  | cons p rest ih =>
      by_cases h : p.1 == k
      · simp [mapHas, mapGet, List.find?, List.any, h]
      · simp only [mapHas, mapGet, List.find?, List.any] at *
        simp [h] at *
        exact ih

/-- Lemma: after `mapDelete m k`, looking up `k` gives nothing. -/
theorem mapGet_mapDelete_self {α : Type} (m : List (String × α)) (k : String) :
    mapGet (mapDelete m k) k = none := by
  induction m with
  | nil => rfl
  | cons p rest ih =>
      by_cases h : p.1 == k
      · have hb : (p.1 != k) = false := by simp [bne, h]
        rw [mapDelete, List.filter_cons, hb]
        exact ih
      · have hb : (p.1 != k) = true := by simp [bne, h]
        rw [mapDelete, List.filter_cons, hb]
        simp [mapGet, List.find?, h]


/-- Lemma: joining a nonempty list of lines starts with the first line. -/
theorem intercalate_cons_exists (sep : String) (l : List String) (a : String) :
    ∃ r, String.intercalate sep (a :: l) = a ++ r := by
  induction l generalizing a with
  | nil => exact ⟨"", by simp [String.intercalate]; rfl⟩
  | cons b bs ih =>
      obtain ⟨r, hr⟩ := ih (a ++ sep ++ b)
      refine ⟨sep ++ b ++ r, ?_⟩
      have h1 : String.intercalate sep (a :: b :: bs) =
          String.intercalate sep ((a ++ sep ++ b) :: bs) := rfl
      rw [h1, hr]
      simp [String.append_assoc]

/-- Lemma: the `formatToolError` diagnostic begins by naming the playbook step
and the tool of the failed call. -/
theorem formatToolError_names_step_and_tool (step : Nat) (toolName : String) (err : ErrVal) :
    ∃ r, formatToolError step toolName err =
      "Error during tool execution at playbook step " ++ toString step
        ++ " (call \"" ++ toolName ++ "\"):" ++ r := by
  unfold formatToolError
  exact intercalate_cons_exists "\n" _ _

/-- C1: the claim says two `run()` calls on one session with the same mock-tool
configuration yield exactly 2 times the Tool Result Records for a repeated tool
name, because the wrapped tool set is re-derived from an original unwrapped
tool set captured at session creation.  The code contradicts this: `run()`
derives the wrapped set from the CURRENT `state.tools` — after the first run,
the already-wrapped set — so the second run double-wraps.  Evaluating the
embedded session at the regression-test scenario (`fixes.test.ts`, one
`counter_tool` call per run): the first run yields 1 record, but after the
second run there are 3 records (the claim, and the repository's own test,
require 2), even though the real tool executed exactly twice. -/
theorem run_twice_produces_three_records_for_one_tool :
    (toolResultsFor c1Run1.2.world.toolResults "counter_tool").length = 1
    ∧ (toolResultsFor c1Run2.2.world.toolResults "counter_tool").length = 3
    ∧ c1Run2.2.world.hits = 2 := by
  refine ⟨by decide, by decide, by decide⟩

/-- C2: the claim says a tool block is raised as a dedicated, identifiable
error kind distinct from ordinary failures.  The code contradicts this: the
mock path throws a plain `Error(reason)` — in the embedding, an `ErrVal`
carrying nothing but the reason text, structurally identical to any ordinary
failure (the repository's own regression test demands an exported
`ToolBlockedError` with a `toolBlocked` marker, which the source does not
define).  Evaluating the blocked mocked call: the raised error is the bare
reason-only error value; the other conjuncts show the parts of the claim the
code does satisfy — the error-flagged, mocked Tool Result Record is appended
before the error is raised. -/
theorem mock_block_raises_plain_error :
    c2Out.1 = .error { message := "WRITE operation blocked in plan mode",
                       stack := none, cause := none }
    ∧ c2Out.2.toolResults =
        [{ step := 1, toolName := "bash", toolCallId := "playbook-tc-1",
           text := "WRITE operation blocked in plan mode",
           content := [{ type := "text", text := "WRITE operation blocked in plan mode" }],
           isError := true, details := none, mocked := true }] := by
  exact ⟨rfl, by decide⟩

/-- C3: the claim says the tool-call-id counter is scoped to one Response
Generator engine instance, not to process-wide state, so concurrent or
sequential sessions never interfere.  The code contradicts this: playbook.ts
declares `toolCallCounter` at module level (process-wide), only resetting it
inside `createPlaybookStreamFn`.  Evaluating two concurrently constructed
engines: in isolation engine B's first call id is "playbook-tc-1", but when
engine A generates one call between B's construction and B's first
generation, B's first call id becomes "playbook-tc-2" — the shared counter
lets one engine's activity change another engine's ids (the CHANGELOG claims
the counter was scoped to the factory closure "for concurrency safety", which
this source does not do). -/
theorem toolCallCounter_shared_across_engines :
    c3Isolated = [.toolCall "playbook-tc-1" "toolB" []]
    ∧ c3Interleaved = [.toolCall "playbook-tc-2" "toolB" []] := by
  exact ⟨by decide, by decide⟩

/-- C4: for a Call action whose parameter source is a zero-argument function,
the parameters placed into the tool-invocation response equal the function
evaluated at dequeue time against the then-current ambient state `wRun` — for
every `wRun`, independent of anything at enqueue time (the construction in the
first conjunct takes no ambient state at all), so mutations between scripting
and dequeue are reflected in the call. -/
theorem late_bound_params_resolved_at_dequeue (prompt toolName : String)
    (f : World → Params) (m0 m : PlaybookModule) (wRun : World) (cb : Option Callback)
    (rest : List PlaybookAction) (st : PlaybookState) :
    ((streamFnStep
        (createPlaybookStreamFn m0
          [{ prompt := prompt, actions := [.call toolName (some (.fn f)) cb] }]).1 wRun
        (createPlaybookStreamFn m0
          [{ prompt := prompt,
             actions := [.call toolName (some (.fn f)) cb] }]).2).2.2.message.content =
      [.toolCall "playbook-tc-1" toolName (f wRun)])
    ∧ (streamFnStep m wRun
        { queue := .call toolName (some (.fn f)) cb :: rest, state := st }).2.2.message.content =
      [.toolCall ("playbook-tc-" ++ toString (m.toolCallCounter + 1)) toolName (f wRun)]
    ∧ (streamFnStep m wRun
        { queue := .call toolName (some (.fn f)) cb :: rest, state := st }).2.2.reason =
      "toolUse" := by
  refine ⟨?_, ?_, ?_⟩
  · cases cb with
    | none =>
        show (streamFnStep { toolCallCounter := 0 } wRun
            { queue := [.call toolName (some (.fn f)) none],
              state := { consumed := 0, remaining := 1, consumedActions := [],
                         pendingCallbacks := [] } }).2.2.message.content = _
        rfl
    | some c =>
        show (streamFnStep { toolCallCounter := 0 } wRun
            { queue := [.call toolName (some (.fn f)) (some c)],
              state := { consumed := 0, remaining := 1, consumedActions := [],
                         pendingCallbacks := [] } }).2.2.message.content = _
        rfl
  · cases cb <;> rfl
  · cases cb <;> rfl


/-- C5: when the action queue is empty, a further generation invocation raises
nothing (the step is a total function returning a terminal event): it yields a
"stop" terminal response whose text carries the "[PLAYBOOK EXHAUSTED]" marker
followed by the exhaustion diagnostic, and the engine — its consumed count,
remaining count, and consumed-actions log — is returned untouched. -/
theorem streamFn_exhausted_is_stop_and_state_unchanged (m : PlaybookModule) (w : World)
    (st : PlaybookState) :
    streamFnStep m w { queue := [], state := st } =
      (m, { queue := [], state := st },
       { reason := "stop",
         message :=
           { role := "assistant",
             content := [.text ("[PLAYBOOK EXHAUSTED] "
               ++ formatPlaybookDiagnostic "exhausted" st none)],
             api := "openai-responses", provider := "test", model := "playbook",
             stopReason := "stop" } }) := rfl

/-- C6: a pending completion callback is looked up by tool-call id first, then
by tool-name fallback (first conjunct), and the matching entry is removed at
the moment it fires: afterwards the fired key maps to nothing (second
conjunct), and exactly the entry under the fired key is deleted, the map
staying untouched when nothing fires (third conjunct) — so an entry fires at
most once even when a tool-call id collides with a tool-name fallback key. -/
theorem fireThenCallback_consumes_fired_entry (st : PlaybookState) (toolCallId : String)
    (record : ToolResultRecord) :
    ((fireThenCallback st toolCallId record).2.2 =
      if mapHas st.pendingCallbacks toolCallId then some toolCallId
      else if mapHas st.pendingCallbacks record.toolName then some record.toolName
      else none)
    ∧ mapGet (fireThenCallback st toolCallId record).1.pendingCallbacks
        (if mapHas st.pendingCallbacks toolCallId then toolCallId else record.toolName) = none
    ∧ (fireThenCallback st toolCallId record).1.pendingCallbacks =
        (if mapHas st.pendingCallbacks toolCallId
            || mapHas st.pendingCallbacks record.toolName
         then mapDelete st.pendingCallbacks
           (if mapHas st.pendingCallbacks toolCallId then toolCallId else record.toolName)
         else st.pendingCallbacks) := by
  have hid := mapHas_eq_isSome_mapGet st.pendingCallbacks toolCallId
  have hnm := mapHas_eq_isSome_mapGet st.pendingCallbacks record.toolName
  rcases hg : mapGet st.pendingCallbacks toolCallId with _ | cb
  · rcases hgn : mapGet st.pendingCallbacks record.toolName with _ | cb2
    · rw [hg] at hid; rw [hgn] at hnm
      simp only [Option.isSome] at hid hnm
      refine ⟨?_, ?_, ?_⟩ <;> simp [fireThenCallback, hg, hgn, hid, hnm]
    · rw [hg] at hid; rw [hgn] at hnm
      simp only [Option.isSome] at hid hnm
      cases hcb : cb2 record <;>
        simp [fireThenCallback, hg, hgn, hid, hnm, hcb, mapGet_mapDelete_self]
  · rw [hg] at hid
    simp only [Option.isSome] at hid
    cases hcb : cb record <;>
      simp [fireThenCallback, hg, hid, hcb, mapGet_mapDelete_self]

/-- C7: when an unmocked tool's execution throws an error not classified as a
block, the wrapper appends an error-flagged record (`mocked = false`), applies
the callback-firing step to the post-record world, and then: with the
error-propagation flag set it re-raises the error wrapped in the
`formatToolError` diagnostic (which names the playbook step and the tool, last
conjunct); with the flag cleared it swallows the error and returns a
synthesized error-flagged result. -/
theorem unmocked_error_recorded_then_propagated_or_swallowed (nm : String) (err : ErrVal)
    (stateIdx : Nat) (propagate : Bool) (id : String) (params : Params)
    (world : SessionWorld)
    (hnb : (strContains err.message "blocked" || strContains err.message "Plan mode"
            || strContains err.message "WRITE operation") = false) :
    let out := (wrapForCollection { name := nm, execute := fun _ _ w => (.error err, w) }
      stateIdx propagate false).execute id params world
    let step := stateConsumedAt world stateIdx
    let record : ToolResultRecord :=
      { step := step, toolName := nm, toolCallId := id, text := err.message,
        content := [{ type := "text", text := err.message }], isError := true,
        details := none, mocked := false }
    let world3 := fireThenCallbackAt
      { world with toolResults := world.toolResults ++ [record] } stateIdx id record
    out.2 = world3
    ∧ out.2.toolResults = world.toolResults ++ [record]
    ∧ out.1 = (if propagate then
          Except.error { message := formatToolError step nm err, stack := none,
                         cause := some err.message }
        else Except.ok { content := [{ type := "text", text := err.message }],
                         details := some (.obj []), isError := some true })
    ∧ ∃ r, formatToolError step nm err =
        "Error during tool execution at playbook step " ++ toString step
          ++ " (call \"" ++ nm ++ "\"):" ++ r := by
  intro out step record world3
  have h1 : out = (if propagate then
          Except.error { message := formatToolError step nm err, stack := none,
                         cause := some err.message }
        else Except.ok { content := [{ type := "text", text := err.message }],
                         details := some (.obj []), isError := some true }, world3) := by
    simp only [out, wrapForCollection, hnb, record, world3, step]
    cases propagate <;> simp [hnb]
  refine ⟨by rw [h1], ?_, by rw [h1], formatToolError_names_step_and_tool step nm err⟩
  · rw [h1]
    simp only [world3, fireThenCallbackAt]
    cases h : world.pbStates[stateIdx]? <;> simp [h]

/-- C7 witness: the theorem applied at a concrete non-block error ("boom") on
a concrete session world, with the error-propagation flag set. -/
theorem unmocked_error_recorded_then_propagated_or_swallowed_witness :
    (strContains "boom" "blocked" || strContains "boom" "Plan mode"
      || strContains "boom" "WRITE operation") = false
    ∧ (let out := (wrapForCollection
          { name := "my_tool", execute := fun _ _ w => (.error { message := "boom" }, w) }
          0 true false).execute "playbook-tc-1" []
          { toolResults := [], pbStates := [], warnings := [], hits := 0 }
       let step := stateConsumedAt
          { toolResults := [], pbStates := [], warnings := [], hits := 0 } 0
       let record : ToolResultRecord :=
          { step := step, toolName := "my_tool", toolCallId := "playbook-tc-1",
            text := "boom", content := [{ type := "text", text := "boom" }],
            isError := true, details := none, mocked := false }
       let world3 := fireThenCallbackAt
          { toolResults := [record], pbStates := [], warnings := [], hits := 0 }
          0 "playbook-tc-1" record
       out.2 = world3
       ∧ out.2.toolResults = [record]
       ∧ out.1 = Except.error
           { message := formatToolError step "my_tool" { message := "boom" },
             stack := none, cause := some "boom" }
       ∧ ∃ r, formatToolError step "my_tool" { message := "boom" } =
           "Error during tool execution at playbook step " ++ toString step
             ++ " (call \"my_tool\"):" ++ r) := by
  constructor
  · decide
  · have h := unmocked_error_recorded_then_propagated_or_swallowed "my_tool"
      { message := "boom" } 0 true "playbook-tc-1" []
      { toolResults := [], pbStates := [], warnings := [], hits := 0 } (by decide)
    exact h


/-- C8: after all turns, the post-run check of `run()` raises a failure if and
only if the playbook state's remaining count is nonzero (first conjunct); the
failure carries the "not fully consumed" diagnostic built from the undequeued
suffix of all scripted actions (second conjunct), whose lines report
consumed-of-total counts, list at most five remaining actions, and append an
overflow count exactly when more than five remain (remaining conjuncts). -/
theorem run_raises_iff_unconsumed_with_diagnostic (turns : List Turn) (st : PlaybookState) :
    let allActions := (turns.map Turn.actions).flatten
    let remaining := allActions.drop st.consumed
    let listed := (remaining.take 5).map (fun a => "    - " ++ formatAction a)
    let overflow := if remaining.length > 5 then
        ["    ... +" ++ toString (remaining.length - 5) ++ " more"] else []
    (runConsumptionCheck turns st = .ok () ↔ st.remaining = 0)
    ∧ (st.remaining ≠ 0 →
        runConsumptionCheck turns st =
          .error (String.intercalate "\n" (remainingDiagLines st remaining)))
    ∧ remainingDiagLines st remaining =
        ["Playbook not fully consumed after run() completed.",
         "  Consumed " ++ toString st.consumed ++ " of "
           ++ toString (st.consumed + remaining.length) ++ " action(s).",
         "  Remaining:"]
        ++ listed ++ overflow
        ++ ["",
            "  The agent loop ended before all playbook actions were used.",
            "  This usually means a tool was blocked by a hook or returned early,",
            "  causing fewer streamFn calls than expected."]
    ∧ listed.length ≤ 5 := by
  intro allActions remaining listed overflow
  refine ⟨?_, ?_, rfl, ?_⟩
  · by_cases h : st.remaining > 0 <;>
      simp [runConsumptionCheck, h] <;> omega
  · intro h
    have hp : st.remaining > 0 := Nat.pos_of_ne_zero h
    simp [runConsumptionCheck, hp, formatPlaybookDiagnostic, remaining, allActions]
  · simp only [listed, List.length_map, List.length_take]
    omega

/-- C8 witness: the theorem applied to a seven-action playbook of which
nothing was consumed — the check fails, five actions are listed, and the
overflow line reports two more. -/
theorem run_raises_iff_unconsumed_with_diagnostic_witness :
    (let turns : List Turn :=
        [{ prompt := "p",
           actions := [saysAction "a1", saysAction "a2", saysAction "a3", saysAction "a4",
                       saysAction "a5", saysAction "a6", saysAction "a7"] }]
     let st : PlaybookState :=
        { consumed := 0, remaining := 7, consumedActions := [], pendingCallbacks := [] }
     let remaining := ((turns.map Turn.actions).flatten).drop st.consumed
     runConsumptionCheck turns st =
        .error (String.intercalate "\n" (remainingDiagLines st remaining))
     ∧ ((remaining.take 5).map (fun a => "    - " ++ formatAction a)).length ≤ 5
     ∧ remaining.length = 7
     ∧ (if remaining.length > 5 then
          ["    ... +" ++ toString (remaining.length - 5) ++ " more"] else [])
        = ["    ... +2 more"]) := by
  refine ⟨?_, ?_, by decide, by decide⟩
  · exact (run_raises_iff_unconsumed_with_diagnostic _ _).2.1 (by decide)
  · exact (run_raises_iff_unconsumed_with_diagnostic _ _).2.2.2

/-- C9: when a completion callback itself throws while being fired, the
exception is caught and logged (the warn line is appended, last conjunct) and
never propagates: the invocation still returns its result unchanged (first
conjunct) and still appends its Tool Result Record (second conjunct); and the
entry had already been removed from the pending-callback map when the callback
ran — it is gone even though the callback threw (third conjunct). -/
theorem throwing_callback_logged_and_outcome_unchanged (nm : String) (r : ToolResult)
    (cbMsg : String) (id : String) (params : Params) (c rm : Nat)
    (ca : List PlaybookAction) (tr : List ToolResultRecord) (ws : List String)
    (hits : Nat) :
    let st : PlaybookState :=
      { consumed := c, remaining := rm, consumedActions := ca,
        pendingCallbacks := [(id, fun _ => Except.error cbMsg)] }
    let world : SessionWorld :=
      { toolResults := tr, pbStates := [st], warnings := ws, hits := hits }
    let out := (wrapForCollection { name := nm, execute := fun _ _ w => (.ok r, w) }
      0 true false).execute id params world
    let record : ToolResultRecord :=
      { step := c, toolName := nm, toolCallId := id, text := contentText r.content,
        content := r.content, isError := r.isError.getD false, details := r.details,
        mocked := false }
    out.1 = .ok r
    ∧ out.2.toolResults = tr ++ [record]
    ∧ out.2.pbStates =
        [{ consumed := c, remaining := rm, consumedActions := ca, pendingCallbacks := [] }]
    ∧ out.2.warnings =
        ws ++ ["[pi-test-harness] .then() callback error for " ++ nm ++ ": " ++ cbMsg] := by
  refine ⟨rfl, rfl, ?_, ?_⟩ <;>
    simp [wrapForCollection, fireThenCallbackAt, fireThenCallback, stateConsumedAt,
      mapGet, mapHas, mapDelete, List.find?]

/-- C10: with no mock-UI handler configured, `confirm` resolves to `true`,
`select` resolves to the first offered option (`options.head?`), and `input`
and `editor` resolve to the empty string; and each of the four interactive
invocations appends a UI Call Record carrying the method name, the arguments,
and the value returned to the caller. -/
theorem mock_ui_defaults_and_recording (title message : String) (options : List String)
    (placeholder prefill : Option String) (uiLog : List UICallRecord) :
    (uiConfirm {} uiLog title message).1 = true
    ∧ (uiConfirm {} uiLog title message).2 =
        uiLog ++ [{ method := "confirm", args := [.str title, .str message],
                    returnValue := some (.bool true) }]
    ∧ (uiSelect {} uiLog title options).1 = options.head?
    ∧ (uiSelect {} uiLog title options).2 =
        uiLog ++ [{ method := "select", args := [.str title, .strList options],
                    returnValue := options.head?.map UIVal.str }]
    ∧ (uiInput {} uiLog title placeholder).1 = some ""
    ∧ (uiInput {} uiLog title placeholder).2 =
        uiLog ++ [{ method := "input", args := [.str title, uiArgOfOpt placeholder],
                    returnValue := some (.str "") }]
    ∧ (uiEditor {} uiLog title prefill).1 = some ""
    ∧ (uiEditor {} uiLog title prefill).2 =
        uiLog ++ [{ method := "editor", args := [.str title, uiArgOfOpt prefill],
                    returnValue := some (.str "") }] :=
  ⟨rfl, rfl, rfl, rfl, rfl, rfl, rfl, rfl⟩

end PiTestHarness
